import Mathlib

/-!
# gobank — verification of the account service

A shallow embedding of the `gobank` HTTP banking service: the `Account`
data model (types.go), the persistence layer (the SQL statements of the
PostgresStore are modelled over a list-of-rows store), the JWT issuance,
verification and middleware, and the HTTP handlers, together with theorems
settling the specified behavioural properties.

Modelling conventions:
* the `accounts` table is a `List Account`; a `select`/`update`/`delete`
  with a `where` clause acts on the rows matching the predicate, and
  `rows.Next()` followed by a single scan reads the first matching row;
* machine integers (`int`, `int64`) are `Int`; the `float64` transfer
  amount is modelled as an integer amount; timestamps are `Int` unix
  seconds;
* the bcrypt and uuid library functions are parameters of the definitions
  that call them (the repository code only wires them together), so the
  theorems state their hypotheses on those parameters explicitly;
* the HMAC signature of a JWT is modelled symbolically as the signing key
  paired with the signed claims (an unforgeable, collision-free MAC).
-/

namespace GoBank

/-- The `Account` record (types.go, authenticated variant).  The field
`encryptedPassword` carries the Go struct tag `json:"-"`, which excludes it
from JSON serialization. -/
structure Account where
  id : Int
  firstName : String
  lastName : String
  number : String
  encryptedPassword : String
  balance : Int
  createdAt : Int
deriving Repr, DecidableEq

/-- `TransferRequest` (types.go): destination account number and a signed
amount (`float64` in the source, modelled as an integer). -/
structure TransferRequest where
  toAccount : String
  amount : Int
deriving Repr, DecidableEq

/-- `CreateAccountRequest` (types.go, authenticated variant). -/
structure CreateAccountRequest where
  firstName : String
  lastName : String
  password : String
deriving Repr, DecidableEq

/-- Minimal JSON value model: enough to state exactly what each handler
serializes. -/
inductive Json where
  | str (s : String)
  | int (n : Int)
  | obj (fields : List (String × Json))
  | arr (elems : List Json)

/-- The top-level keys of a JSON object (empty for non-objects). -/
def Json.topKeys : Json → List String
  | .obj fields => fields.map Prod.fst
  | _ => []

/-- An HTTP response as produced by `WriteJSON(w, status, v)`: a status
code and the JSON body handed to the encoder. -/
structure ApiResponse where
  status : Nat
  body : Json

/-! ## Domain model constructors (types.go) -/

/-- `NewAccount(first, last, password)`: hashes the password with bcrypt
and fills the record.  `generateFromPassword` stands for
`bcrypt.GenerateFromPassword` at the default cost (which cannot fail at a
valid cost), `uuidString` for the result of `uuid.NewString()`, and `now`
for `time.Now().UTC()`.  The `id` and `balance` fields are left at their Go
zero values. -/
def NewAccount (generateFromPassword : String → String)
    (firstName lastName password : String) (uuidString : String) (now : Int) :
    Account :=
  { id := 0
    firstName := firstName
    lastName := lastName
    number := uuidString
    encryptedPassword := generateFromPassword password
    balance := 0
    createdAt := now }

/-- `Account.ValidatePassword(pw)`: true exactly when
`bcrypt.CompareHashAndPassword(hash, pw)` returns a nil error;
`compareHashAndPassword` stands for that nil-error test. -/
def ValidatePassword (compareHashAndPassword : String → String → Bool)
    (a : Account) (pw : String) : Bool :=
  compareHashAndPassword a.encryptedPassword pw

/-! ## Persistence layer (storage, authenticated variant)

The happy-path semantics of each SQL statement over the list-of-rows
store.  The failure path of `db.Query` (nil rows plus an error) is modelled
separately below for the operations that do not check the error. -/

/-- `GetAccounts`: `select * from accounts`, scanning every row. -/
def GetAccounts (s : List Account) : List Account := s

/-- `GetAccountByID`: `select * from accounts where id = $1`, scanning the
first matching row; if no row matches, the error `account %d not found`. -/
def GetAccountByID (s : List Account) (id : Int) : Except String Account :=
  match (s.filter (fun a => a.id = id)).head? with
  | some a => .ok a
  | none => .error ("account " ++ toString id ++ " not found")

/-- `GetAccountByNumber`: `select * from accounts where number = $1`,
scanning the first matching row. -/
def GetAccountByNumber (s : List Account) (number : String) :
    Except String Account :=
  match (s.filter (fun a => a.number = number)).head? with
  | some a => .ok a
  | none => .error ("account " ++ number ++ " not found")

/-- `CreateAccount`: `insert into accounts (...) values (...)`.  The serial
id assigned by the database to the new row is not modelled; no claim
depends on the id of a freshly inserted row. -/
def CreateAccount (s : List Account) (acc : Account) : List Account :=
  s ++ [acc]

/-- `DeleteAccount`: `delete from accounts where id = $1 returning id`.
Every matching row is deleted; the Go code scans the first returned id and
yields `0` when no row was deleted.  Returns the scanned id and the store
after deletion. -/
def DeleteAccount (s : List Account) (id : Int) : Int × List Account :=
  (match (s.filter (fun a => a.id = id)).head? with
   | some a => a.id
   | none => 0,
   s.filter (fun a => a.id ≠ id))

/-- `Transfer`: `update accounts set balance = balance + $1 where
number = $2 returning id`.  Every row with the given number is credited by
the signed amount; the Go code scans the first returned id and yields `0`
when no row matched.  Returns the scanned id and the store after the
update. -/
def Transfer (s : List Account) (accountNumber : String) (amount : Int) :
    Int × List Account :=
  (match (s.filter (fun a => a.number = accountNumber)).head? with
   | some a => a.id
   | none => 0,
   s.map (fun a =>
     if a.number = accountNumber then { a with balance := a.balance + amount }
     else a))

/-! ## The unchecked `db.Query` error in `DeleteAccount` and `Transfer`

In the source, `DeleteAccount` and `Transfer` run
`rows, err := s.db.Query(...)` and immediately iterate `for rows.Next()`
without checking `err`.  When the query fails (connectivity, constraint
violation), `db.Query` returns a nil `*sql.Rows` together with the error,
and `rows.Next()` dereferences the nil pointer: a runtime panic, not a
returned store error.  `GetAccounts`/`GetAccountByID`/`GetAccountByNumber`/
`CreateAccount` do check `err` first and return it. -/

/-- Outcome of running a Go function body: a normal return or a runtime
panic. -/
inductive GoOutcome (α : Type) where
  | ret (value : α)
  | crash (msg : String)
deriving Repr, DecidableEq

/-- `DeleteAccount` at the level of the `db.Query` call.  The argument is
the result of `db.Query`: on failure the rows handle is nil and iterating
it panics; on success the first returned id is scanned, and `(0, nil)` is
returned when no row matched. -/
def DeleteAccountQuery (queryResult : Except String (List Int)) :
    GoOutcome (Int × Option String) :=
  match queryResult with
  | .error _ =>
      .crash "runtime error: invalid memory address or nil pointer dereference"
  | .ok ids =>
      match ids.head? with
      | some i => .ret (i, none)
      | none => .ret (0, none)

/-- `Transfer` at the level of the `db.Query` call; same unchecked-error
shape as `DeleteAccountQuery`. -/
def TransferQuery (queryResult : Except String (List Int)) :
    GoOutcome (Int × Option String) :=
  match queryResult with
  | .error _ =>
      .crash "runtime error: invalid memory address or nil pointer dereference"
  | .ok ids =>
      match ids.head? with
      | some i => .ret (i, none)
      | none => .ret (0, none)

/-- `GetAccountByID` at the level of the `db.Query` call: here the source
does check `if err != nil { return nil, err }`, so a failing query is
returned as a store error rather than dereferenced. -/
def GetAccountByIDQuery (id : Int)
    (queryResult : Except String (List Account)) :
    GoOutcome (Except String Account) :=
  match queryResult with
  | .error e => .ret (.error e)
  | .ok rows =>
      match rows.head? with
      | some a => .ret (.ok a)
      | none => .ret (.error ("account " ++ toString id ++ " not found"))

/-! ## JWT issuance and verification (api, authenticated variant) -/

/-- The claims the service puts in a token: `exp` (unix seconds) and
`accountNumber`. -/
structure JwtClaims where
  exp : Int
  accountNumber : String
deriving Repr, DecidableEq

/-- A parsed JWT: the header algorithm, the claims, and the signature,
modelled symbolically as the signing key paired with the signed claims. -/
structure JwtToken where
  alg : String
  claims : JwtClaims
  sig : String × JwtClaims
deriving Repr, DecidableEq

/-- A token string on the wire: it either parses into a structured token or
is malformed. -/
inductive TokenWire where
  | tok (t : JwtToken)
  | malformed (s : String)
deriving Repr, DecidableEq

/-- `validateJWT(tokenString)`: `jwt.Parse` with a keyfunc that rejects any
non-HMAC algorithm and supplies the `JWT_SECRET` key.  Parsing fails on a
malformed string; verification fails on a wrong algorithm or a signature
not produced with this secret over these claims; registered-claim
validation fails once the current time `now` has reached `exp`. -/
def validateJWT (secret : String) (now : Int) (w : TokenWire) :
    Except String JwtToken :=
  match w with
  | .malformed _ => .error "token contains an invalid number of segments"
  | .tok t =>
      if ¬ (t.alg = "HS256" ∨ t.alg = "HS384" ∨ t.alg = "HS512") then
        .error ("unexpected signing method: " ++ t.alg)
      else if ¬ t.sig = (secret, t.claims) then
        .error "signature is invalid"
      else if ¬ now < t.claims.exp then
        .error "token is expired"
      else
        .ok t

/-- `createJWT(account)`: claims `exp = now + 60` (one minute) and the
account's external number, signed with HS256 under the `JWT_SECRET`. -/
def createJWT (secret : String) (now : Int) (account : Account) : JwtToken :=
  { alg := "HS256"
    claims := { exp := now + 60, accountNumber := account.number }
    sig := (secret, { exp := now + 60, accountNumber := account.number }) }

/-! ## HTTP layer (api, authenticated variant)

Each handler is modelled as a function from the store and the decoded
request to the `WriteJSON` call it performs (plus the store it leaves
behind, for the mutating handlers).  `makeHandleFunc` wraps a handler and
turns a returned error `e` into `WriteJSON(400, ApiError{e})`; that
wrapping is folded into the handler models below. -/

/-- JSON serialization of `Account` following the struct tags in types.go:
field order as declared, `encryptedPassword` omitted because its tag is
`json:"-"`. -/
def accountToJson (a : Account) : Json :=
  .obj [ ("id", .int a.id),
         ("first_name", .str a.firstName),
         ("last_name", .str a.lastName),
         ("number", .str a.number),
         ("balance", .int a.balance),
         ("created_at", .int a.createdAt) ]

/-- The body of `LoginResponse` (types.go): only the account number and
the token string. -/
def loginResponseToJson (number tokenString : String) : Json :=
  .obj [("number", .str number), ("token", .str tokenString)]

/-- `handleGetAccounts`: lists every stored account, serialized with the
struct tags, as a 200 response. -/
def handleGetAccounts (s : List Account) : ApiResponse :=
  { status := 200, body := .arr ((GetAccounts s).map accountToJson) }

/-- `handleCreateAccount` (authenticated variant): decode the request,
build the account with `NewAccount`, insert it, and write the created
account back as a 201 response. -/
def handleCreateAccount (generateFromPassword : String → String)
    (s : List Account) (req : CreateAccountRequest)
    (uuidString : String) (now : Int) : ApiResponse × List Account :=
  let account := NewAccount generateFromPassword req.firstName req.lastName
    req.password uuidString now
  ({ status := 201, body := accountToJson account }, CreateAccount s account)

/-- The HTTP method of a request to `/accounts/{id}`. -/
inductive Method where
  | GET
  | DELETE
deriving Repr, DecidableEq

/-- `handleAccountById`, wrapped in `makeHandleFunc`.  On GET, a store
error (including not-found) is returned to `makeHandleFunc`, which writes
it as a 400 `ApiError`.  On DELETE, the source overwrites the request id
with the id returned by the store (`id, err = s.store.DeleteAccount(id)`)
before formatting the not-found message, so that message always embeds the
store's returned id. -/
def handleAccountById (s : List Account) (method : Method) (reqId : Int) :
    ApiResponse × List Account :=
  match method with
  | .GET =>
      match GetAccountByID s reqId with
      | .ok account => ({ status := 200, body := accountToJson account }, s)
      | .error e => ({ status := 400, body := .obj [("error", .str e)] }, s)
  | .DELETE =>
      let r := DeleteAccount s reqId
      if r.1 = 0 then
        ({ status := 404,
           body := .obj [("error",
             .str ("account " ++ toString r.1 ++ " not found"))] }, r.2)
      else
        ({ status := 204, body := .obj [("deleted", .int r.1)] }, r.2)

/-- `handleTrasfer`: decode the request, run the transfer, and map the
result: id `0` to a 404 with the formatted message, otherwise a 200
echoing amount and destination.  The list-of-rows store cannot fail, so
the 400 branch for a query error does not arise here (see `TransferQuery`
for the failure path). -/
def handleTrasfer (s : List Account) (req : TransferRequest) :
    ApiResponse × List Account :=
  let r := Transfer s req.toAccount req.amount
  if r.1 = 0 then
    ({ status := 404,
       body := .obj [("error",
         .str ("account not " ++ req.toAccount ++ " not found"))] }, r.2)
  else
    ({ status := 200,
       body := .obj [("transfered", .int req.amount),
                     ("to", .str req.toAccount)] }, r.2)

/-- `permissionDenied(w)`: the fixed 403 response of the middleware. -/
def permissionDenied : ApiResponse :=
  { status := 403, body := .obj [("error", .str "permission denied")] }

/-- The fixed 403 response the middleware writes when token validation
fails. -/
def invalidTokenResponse : ApiResponse :=
  { status := 403, body := .obj [("error", .str "invalid token")] }

/-- `withJWTAuth(handler, store)`: validate the `x-jwt-token` header
(failure → 403 "invalid token"; the separate `!token.Valid` check cannot
fire after a successful `jwt.Parse` and is absorbed into `validateJWT`),
then parse the path id (`getID`; `none` models a non-numeric id segment),
load that account, and compare its number with the `accountNumber` claim;
each of these later failures → 403 "permission denied".  Only when every
check passes is the wrapped handler's response returned. -/
def withJWTAuth (secret : String) (now : Int) (s : List Account)
    (headerToken : TokenWire) (pathId : Option Int)
    (handlerResp : ApiResponse) : ApiResponse :=
  match validateJWT secret now headerToken with
  | .error _ => invalidTokenResponse
  | .ok t =>
      match pathId with
      | none => permissionDenied
      | some userId =>
          match GetAccountByID s userId with
          | .error _ => permissionDenied
          | .ok account =>
              if account.number = t.claims.accountNumber then handlerResp
              else permissionDenied

/-- All checks of `withJWTAuth` pass: the header token verifies, the path
id parses, the account loads, and its number matches the token claim. -/
def authPasses (secret : String) (now : Int) (s : List Account)
    (headerToken : TokenWire) (pathId : Option Int) : Prop :=
  ∃ t userId account,
    validateJWT secret now headerToken = .ok t ∧
    pathId = some userId ∧
    GetAccountByID s userId = .ok account ∧
    account.number = t.claims.accountNumber

/-! ## Concrete fixtures

Small concrete stores used to instantiate the theorems below. -/

/-- A concrete account row. -/
def accAnna : Account :=
  { id := 1, firstName := "Anna", lastName := "Adler", number := "num-anna",
    encryptedPassword := "hash-anna", balance := 5, createdAt := 100 }

/-- A second concrete account row. -/
def accBjorn : Account :=
  { id := 2, firstName := "Bjorn", lastName := "Berg", number := "num-bjorn",
    encryptedPassword := "hash-bjorn", balance := 7, createdAt := 200 }

/-- A concrete two-row store. -/
def demoStore : List Account := [accAnna, accBjorn]

/-- A token correctly signed with secret `"sec"` whose number claim
matches no stored account. -/
def demoMismatchToken : JwtToken :=
  { alg := "HS256"
    claims := { exp := 1000, accountNumber := "num-zoe" }
    sig := ("sec", { exp := 1000, accountNumber := "num-zoe" }) }

/-- A sample success response a protected handler could produce. -/
def demoHandlerResp : ApiResponse :=
  { status := 200, body := Json.obj [] }

/-- A concrete injective stand-in for the uuid generator: draw `n` is the
string of `n` copies of `u`. -/
def demoUuid (n : Nat) : String := String.mk (List.replicate n 'u')

/-! ## Auxiliary lemmas -/

/-- The store left behind by `handleTrasfer` is the store left behind by
`Transfer`, on both branches. -/
theorem handleTrasfer_snd (s : List Account) (req : TransferRequest) :
    (handleTrasfer s req).2 = (Transfer s req.toAccount req.amount).2 := by
  unfold handleTrasfer
  dsimp only
  split <;> rfl

/-- The store left behind by the DELETE branch of `handleAccountById` is
the store left behind by `DeleteAccount`. -/
theorem handleAccountById_delete_snd (s : List Account) (reqId : Int) :
    (handleAccountById s .DELETE reqId).2 = (DeleteAccount s reqId).2 := by
  unfold handleAccountById
  dsimp only
  split <;> rfl

/-- If some row matches the transfer's destination number, `Transfer`
returns the id of the first matching row, which is a stored row with that
number. -/
theorem Transfer_fst_of_mem (s : List Account) (n : String) (amt : Int)
    (a : Account) (ha : a ∈ s) (hn : a.number = n) :
    ∃ b ∈ s, b.number = n ∧ (Transfer s n amt).1 = b.id := by
  cases hfil : (s.filter (fun x => x.number = n)).head? with
  | none =>
      have hmem : a ∈ List.filter (fun x => decide (x.number = n)) s :=
        List.mem_filter.mpr ⟨ha, by simp [hn]⟩
      rw [List.head?_eq_none_iff.mp hfil] at hmem
      exact absurd hmem (List.not_mem_nil a)
  | some b =>
      have hb := List.mem_filter.mp (List.mem_of_mem_head? hfil)
      refine ⟨b, hb.1, by simpa using hb.2, ?_⟩
      unfold Transfer
      rw [hfil]

/-- C1: for a transfer request to destination number `N` with signed
amount `A`, over a store with unique numbers and nonzero (serial) ids: if
some account has number `N`, the handler answers 200 echoing amount and
destination, and exactly the matched account's balance is incremented by
`A`, all other rows being untouched; if no account has number `N`, the
store returns id 0 and the handler answers 404. -/
theorem transfer_endpoint_correct (s : List Account) (req : TransferRequest)
    (hids : ∀ a ∈ s, a.id ≠ 0)
    (hnodup : (s.map Account.number).Nodup) :
    ((∃ a ∈ s, a.number = req.toAccount) →
      (handleTrasfer s req).1.status = 200 ∧
      (handleTrasfer s req).1.body =
        Json.obj [("transfered", Json.int req.amount),
                  ("to", Json.str req.toAccount)] ∧
      ∃ l₁ a l₂, s = l₁ ++ a :: l₂ ∧ a.number = req.toAccount ∧
        (handleTrasfer s req).2 =
          l₁ ++ { a with balance := a.balance + req.amount } :: l₂) ∧
    ((∀ a ∈ s, a.number ≠ req.toAccount) →
      (Transfer s req.toAccount req.amount).1 = 0 ∧
      (handleTrasfer s req).1.status = 404) := by
  constructor
  · rintro ⟨a, ha, hnum⟩
    obtain ⟨b, hbs, hbn, hfst⟩ :=
      Transfer_fst_of_mem s req.toAccount req.amount a ha hnum
    have hne : ¬ (Transfer s req.toAccount req.amount).1 = 0 := by
      rw [hfst]; exact hids b hbs
    have hbranch : handleTrasfer s req =
        ({ status := 200,
           body := Json.obj [("transfered", Json.int req.amount),
                             ("to", Json.str req.toAccount)] },
         (Transfer s req.toAccount req.amount).2) := by
      unfold handleTrasfer
      dsimp only
      rw [if_neg hne]
    refine ⟨by rw [hbranch], by rw [hbranch], ?_⟩
    obtain ⟨l₁, l₂, hs⟩ := List.mem_iff_append.mp ha
    refine ⟨l₁, a, l₂, hs, hnum, ?_⟩
    rw [handleTrasfer_snd]
    subst hs
    rw [List.map_append, List.map_cons] at hnodup
    have hnd := List.nodup_append.mp hnodup
    have hal₂ : a.number ∉ l₂.map Account.number :=
      (List.nodup_cons.mp hnd.2.1).1
    have hal₁ : a.number ∉ l₁.map Account.number := fun hmem =>
      hnd.2.2 hmem (List.mem_cons_self _ _)
    unfold Transfer
    dsimp only
    rw [List.map_append, List.map_cons, if_pos hnum]
    have hmap₁ : l₁.map (fun x =>
        if x.number = req.toAccount then
          { x with balance := x.balance + req.amount } else x) = l₁ := by
      refine (List.map_congr_left ?_).trans (List.map_id l₁)
      intro x hx
      have hxn : ¬ x.number = req.toAccount := by
        intro hxn
        exact hal₁ (by
          rw [hnum.trans hxn.symm]
          exact List.mem_map_of_mem Account.number hx)
      rw [if_neg hxn]
      rfl
    have hmap₂ : l₂.map (fun x =>
        if x.number = req.toAccount then
          { x with balance := x.balance + req.amount } else x) = l₂ := by
      refine (List.map_congr_left ?_).trans (List.map_id l₂)
      intro x hx
      have hxn : ¬ x.number = req.toAccount := by
        intro hxn
        exact hal₂ (by
          rw [hnum.trans hxn.symm]
          exact List.mem_map_of_mem Account.number hx)
      rw [if_neg hxn]
      rfl
    rw [hmap₁, hmap₂]
  · intro hnone
    have hfil : s.filter (fun x => x.number = req.toAccount) = [] :=
      List.filter_eq_nil_iff.mpr (fun a ha => by simpa using hnone a ha)
    have h0 : (Transfer s req.toAccount req.amount).1 = 0 := by
      unfold Transfer
      rw [hfil]
      rfl
    refine ⟨h0, ?_⟩
    unfold handleTrasfer
    dsimp only
    rw [if_pos h0]

/-- Witness: `transfer_endpoint_correct` at the concrete two-row store,
once with an existing destination number and once with an unknown one. -/
theorem transfer_endpoint_correct_witness :
    (handleTrasfer demoStore { toAccount := "num-anna", amount := 3 }).1.status = 200 ∧
    (handleTrasfer demoStore { toAccount := "num-zoe", amount := 3 }).1.status = 404 := by
  have h := transfer_endpoint_correct demoStore
    { toAccount := "num-anna", amount := 3 } (by decide) (by decide)
  have h' := transfer_endpoint_correct demoStore
    { toAccount := "num-zoe", amount := 3 } (by decide) (by decide)
  exact ⟨(h.1 ⟨accAnna, by decide, by decide⟩).1, (h'.2 (by decide)).2⟩

/-- If some row matches the requested id, `DeleteAccount` returns the id
of the first matching row, which is a stored row with that id. -/
theorem DeleteAccount_fst_of_mem (s : List Account) (reqId : Int)
    (a : Account) (ha : a ∈ s) (haid : a.id = reqId) :
    ∃ b ∈ s, b.id = reqId ∧ (DeleteAccount s reqId).1 = b.id := by
  cases hfil : (List.filter (fun x => decide (x.id = reqId)) s).head? with
  | none =>
      have hmem : a ∈ List.filter (fun x => decide (x.id = reqId)) s :=
        List.mem_filter.mpr ⟨ha, by simp [haid]⟩
      rw [List.head?_eq_none_iff.mp hfil] at hmem
      exact absurd hmem (List.not_mem_nil a)
  | some b =>
      have hb := List.mem_filter.mp (List.mem_of_mem_head? hfil)
      refine ⟨b, hb.1, by simpa using hb.2, ?_⟩
      unfold DeleteAccount
      rw [hfil]

/-- C2: DELETE /accounts/{id} over a store with nonzero (serial) ids: for
an id with no matching row, the store reports 0 and the handler answers
404; for an existing id, the handler answers 204 with body
`{"deleted": id}`, and no row with that id remains in the subsequent
`GET /accounts` listing. -/
theorem delete_endpoint_correct (s : List Account) (reqId : Int)
    (hids : ∀ a ∈ s, a.id ≠ 0) :
    ((∀ a ∈ s, a.id ≠ reqId) →
      (DeleteAccount s reqId).1 = 0 ∧
      (handleAccountById s .DELETE reqId).1.status = 404) ∧
    ((∃ a ∈ s, a.id = reqId) →
      (handleAccountById s .DELETE reqId).1.status = 204 ∧
      (handleAccountById s .DELETE reqId).1.body =
        Json.obj [("deleted", Json.int reqId)] ∧
      ∀ b ∈ GetAccounts (handleAccountById s .DELETE reqId).2,
        b.id ≠ reqId) := by
  constructor
  · intro hnone
    have hfil : List.filter (fun x => decide (x.id = reqId)) s = [] :=
      List.filter_eq_nil_iff.mpr (fun a ha => by simpa using hnone a ha)
    have h0 : (DeleteAccount s reqId).1 = 0 := by
      unfold DeleteAccount
      rw [hfil]
      rfl
    refine ⟨h0, ?_⟩
    unfold handleAccountById
    dsimp only
    rw [if_pos h0]
  · rintro ⟨a, ha, haid⟩
    obtain ⟨b, hbs, hbid, hfst⟩ := DeleteAccount_fst_of_mem s reqId a ha haid
    have hne : ¬ (DeleteAccount s reqId).1 = 0 := by
      rw [hfst]; exact hids b hbs
    have hbranch : handleAccountById s .DELETE reqId =
        ({ status := 204,
           body := Json.obj [("deleted", Json.int (DeleteAccount s reqId).1)] },
         (DeleteAccount s reqId).2) := by
      unfold handleAccountById
      dsimp only
      rw [if_neg hne]
    refine ⟨by rw [hbranch], by rw [hbranch, hfst, hbid], ?_⟩
    intro c hc
    rw [handleAccountById_delete_snd] at hc
    unfold DeleteAccount at hc
    unfold GetAccounts at hc
    simpa using (List.mem_filter.mp hc).2

/-- Witness: `delete_endpoint_correct` at the concrete two-row store, once
with an unknown id and once with an existing one. -/
theorem delete_endpoint_correct_witness :
    (handleAccountById demoStore .DELETE 7).1.status = 404 ∧
    (handleAccountById demoStore .DELETE 1).1.status = 204 := by
  have h7 := delete_endpoint_correct demoStore 7 (by decide)
  have h1 := delete_endpoint_correct demoStore 1 (by decide)
  exact ⟨(h7.1 (by decide)).2, (h1.2 ⟨accAnna, by decide, by decide⟩).1⟩

/-- C10: when the DELETE branch takes the not-found path, the request id
variable has already been overwritten with the 0 the store returned
(`id, err = s.store.DeleteAccount(id)`), so the 404 message always reads
`account 0 not found`, whatever id the client requested. -/
theorem delete_not_found_message_uses_store_id (s : List Account)
    (reqId : Int) (h : ∀ a ∈ s, a.id ≠ reqId) :
    (handleAccountById s .DELETE reqId).1.status = 404 ∧
    (handleAccountById s .DELETE reqId).1.body =
      Json.obj [("error", Json.str "account 0 not found")] := by
  have hfil : List.filter (fun x => decide (x.id = reqId)) s = [] :=
    List.filter_eq_nil_iff.mpr (fun a ha => by simpa using h a ha)
  have h0 : (DeleteAccount s reqId).1 = 0 := by
    unfold DeleteAccount
    rw [hfil]
    rfl
  constructor
  · unfold handleAccountById
    dsimp only
    rw [if_pos h0]
  · unfold handleAccountById
    dsimp only
    rw [if_pos h0, h0]
    rfl

/-- Witness: `delete_not_found_message_uses_store_id` at the concrete
store with requested id 9: the message embeds 0, not 9. -/
theorem delete_not_found_message_witness :
    (handleAccountById demoStore .DELETE 9).1.body =
      Json.obj [("error", Json.str "account 0 not found")] :=
  (delete_not_found_message_uses_store_id demoStore 9 (by decide)).2

/-- C3 (counterexample): two authentication failure causes — a malformed
token, and a well-signed token whose number claim mismatches the loaded
account — produce different responses ("invalid token" vs "permission
denied" bodies), so the 403 responses are not identical across causes. -/
theorem jwt_auth_responses_differ :
    withJWTAuth "sec" 0 demoStore (.malformed "xx") (some 1) demoHandlerResp ≠
      withJWTAuth "sec" 0 demoStore (.tok demoMismatchToken) (some 1)
        demoHandlerResp := by
  intro h
  have hbody := congrArg (fun r => r.body) h
  simp only [show withJWTAuth "sec" 0 demoStore (.malformed "xx") (some 1)
      demoHandlerResp = invalidTokenResponse from rfl,
    show withJWTAuth "sec" 0 demoStore (.tok demoMismatchToken) (some 1)
      demoHandlerResp = permissionDenied from rfl] at hbody
  simp [invalidTokenResponse, permissionDenied] at hbody

/-- C3 (amended): whenever any middleware check fails, the response has
status 403 and the protected handler is never invoked (the response does
not depend on it); the response is one of exactly two fixed bodies —
"invalid token" when token validation fails, "permission denied" for the
id/account/claim checks — so the client can tell those two groups apart
but nothing finer. -/
theorem jwt_auth_failure_uniform (secret : String) (now : Int)
    (s : List Account) (w : TokenWire) (pathId : Option Int)
    (h : ¬ authPasses secret now s w pathId) (resp resp' : ApiResponse) :
    (withJWTAuth secret now s w pathId resp).status = 403 ∧
    withJWTAuth secret now s w pathId resp =
      withJWTAuth secret now s w pathId resp' ∧
    (withJWTAuth secret now s w pathId resp = invalidTokenResponse ∨
     withJWTAuth secret now s w pathId resp = permissionDenied) := by
  cases hv : validateJWT secret now w with
  | error e => simp [withJWTAuth, hv, invalidTokenResponse]
  | ok t =>
      cases pathId with
      | none => simp [withJWTAuth, hv, permissionDenied]
      | some userId =>
          cases hg : GetAccountByID s userId with
          | error e => simp [withJWTAuth, hv, hg, permissionDenied]
          | ok account =>
              by_cases hn : account.number = t.claims.accountNumber
              · exact absurd ⟨t, userId, account, hv, rfl, hg, hn⟩ h
              · simp [withJWTAuth, hv, hg, if_neg hn, permissionDenied]

/-- Witness: `jwt_auth_failure_uniform` on a malformed header token. -/
theorem jwt_auth_failure_uniform_witness :
    (withJWTAuth "sec" 0 demoStore (.malformed "xx") (some 1)
      demoHandlerResp).status = 403 :=
  (jwt_auth_failure_uniform "sec" 0 demoStore (.malformed "xx") (some 1)
    (by rintro ⟨t, userId, account, hv, -, -, -⟩; simp [validateJWT] at hv)
    demoHandlerResp demoHandlerResp).1

/-- C4 (counterexample): GET /accounts/{id} on the empty store with id 1
answers 400, not 404. -/
theorem get_missing_account_status_is_400 :
    (handleAccountById [] .GET 1).1.status = 400 ∧
    ¬ (handleAccountById [] .GET 1).1.status = 404 :=
  ⟨rfl, by decide⟩

/-- C4 (amended): for every id with no matching row, GET /accounts/{id}
answers 400 — the store's not-found error is surfaced through
`makeHandleFunc`'s generic error branch — with the not-found message as
the error body. -/
theorem get_missing_account_returns_400 (s : List Account) (reqId : Int)
    (h : ∀ a ∈ s, a.id ≠ reqId) :
    (handleAccountById s .GET reqId).1.status = 400 ∧
    (handleAccountById s .GET reqId).1.body =
      Json.obj [("error",
        Json.str ("account " ++ toString reqId ++ " not found"))] := by
  have hfil : List.filter (fun x => decide (x.id = reqId)) s = [] :=
    List.filter_eq_nil_iff.mpr (fun a ha => by simpa using h a ha)
  have hg : GetAccountByID s reqId =
      .error ("account " ++ toString reqId ++ " not found") := by
    unfold GetAccountByID
    rw [hfil]
    rfl
  constructor
  · unfold handleAccountById
    dsimp only
    rw [hg]
  · unfold handleAccountById
    dsimp only
    rw [hg]

/-- Witness: `get_missing_account_returns_400` on the concrete store with
an unknown id. -/
theorem get_missing_account_returns_400_witness :
    (handleAccountById demoStore .GET 9).1.status = 400 :=
  (get_missing_account_returns_400 demoStore 9 (by decide)).1

/-- C5: no JSON response contains the hashed credential.  `accountToJson`
(used by create, list, and get-by-id) is independent of
`encryptedPassword` and carries no `encrypted_password` key; the listing
and get-by-id responses are unchanged if every stored credential is
replaced; the created-account response does not depend on the bcrypt hash
function at all; and the login response carries exactly the `number` and
`token` keys. -/
theorem responses_never_contain_credential (a : Account) (pw : String)
    (s : List Account) (req : CreateAccountRequest)
    (g g' : String → String) (u : String) (now : Int)
    (n tokenString : String) (i : Int) :
    accountToJson { a with encryptedPassword := pw } = accountToJson a ∧
    "encrypted_password" ∉ (accountToJson a).topKeys ∧
    handleGetAccounts (s.map (fun b => { b with encryptedPassword := pw })) =
      handleGetAccounts s ∧
    (handleAccountById (s.map (fun b => { b with encryptedPassword := pw }))
        .GET i).1 =
      (handleAccountById s .GET i).1 ∧
    (handleCreateAccount g s req u now).1 =
      (handleCreateAccount g' s req u now).1 ∧
    (loginResponseToJson n tokenString).topKeys = ["number", "token"] := by
  have hscrub : ∀ b : Account,
      accountToJson { b with encryptedPassword := pw } = accountToJson b :=
    fun b => rfl
  refine ⟨rfl, by simp [accountToJson, Json.topKeys], ?_, ?_, rfl, rfl⟩
  · unfold handleGetAccounts GetAccounts
    congr 1
    rw [List.map_map]
    exact congrArg Json.arr (List.map_congr_left fun b _ => hscrub b)
  · have hfil : (s.map (fun b => { b with encryptedPassword := pw })).filter
        (fun x => decide (x.id = i)) =
        (s.filter (fun x => decide (x.id = i))).map
          (fun b => { b with encryptedPassword := pw }) := by
      rw [List.filter_map]
      rfl
    unfold handleAccountById GetAccountByID
    dsimp only
    rw [hfil, List.head?_map]
    cases (s.filter (fun x => decide (x.id = i))).head? with
    | none => rfl
    | some b => rfl

/-- C6: the claim that every persistence operation surfaces a failing
query as a returned store error is contradicted by `DeleteAccount` and
`Transfer`, which iterate the nil rows handle and panic; `GetAccountByID`,
which does check the error, returns it. -/
theorem delete_and_transfer_crash_on_query_error :
    DeleteAccountQuery (.error "connection refused") =
      .crash "runtime error: invalid memory address or nil pointer dereference" ∧
    TransferQuery (.error "connection refused") =
      .crash "runtime error: invalid memory address or nil pointer dereference" ∧
    GetAccountByIDQuery 1 (.error "connection refused") =
      .ret (.error "connection refused") :=
  ⟨rfl, rfl, rfl⟩

/-- C7: for a freshly created account, validating the original password
succeeds and validating any other password fails, under the bcrypt
contract: the comparison accepts the hash of a password exactly for that
password. -/
theorem validate_password_correct
    (generateFromPassword : String → String)
    (compareHashAndPassword : String → String → Bool)
    (hsound : ∀ pw, compareHashAndPassword (generateFromPassword pw) pw = true)
    (hspec : ∀ pw other,
      compareHashAndPassword (generateFromPassword pw) other = true → other = pw)
    (firstName lastName password other uuidString : String) (now : Int)
    (hne : other ≠ password) :
    ValidatePassword compareHashAndPassword
      (NewAccount generateFromPassword firstName lastName password uuidString now)
      password = true ∧
    ValidatePassword compareHashAndPassword
      (NewAccount generateFromPassword firstName lastName password uuidString now)
      other = false := by
  constructor
  · exact hsound password
  · cases hcmp : compareHashAndPassword (generateFromPassword password) other with
    | false => exact hcmp
    | true => exact absurd (hspec password other hcmp) hne

/-- Witness: `validate_password_correct` with a concrete (identity) hash
scheme, a concrete account, and two concrete passwords. -/
theorem validate_password_correct_witness :
    ValidatePassword (fun hash pw => hash == pw)
      (NewAccount (fun pw => pw) "Anna" "Adler" "pw1" "num-1" 0) "pw1" = true ∧
    ValidatePassword (fun hash pw => hash == pw)
      (NewAccount (fun pw => pw) "Anna" "Adler" "pw1" "num-1" 0) "pw2" = false :=
  validate_password_correct (fun pw => pw) (fun hash pw => hash == pw)
    (fun pw => by simp) (fun pw other hcmp => (eq_of_beq hcmp).symm)
    "Anna" "Adler" "pw1" "pw2" "num-1" 0 (by decide)

/-- C8: the token issued at login carries the account's number as the
`accountNumber` claim and expires one minute after issuance; it verifies
at any time strictly before the expiry instant and fails from the expiry
instant on. -/
theorem jwt_token_expiry (secret : String) (now t : Int) (account : Account) :
    (createJWT secret now account).claims.accountNumber = account.number ∧
    (createJWT secret now account).claims.exp = now + 60 ∧
    (t < now + 60 →
      validateJWT secret t (.tok (createJWT secret now account)) =
        .ok (createJWT secret now account)) ∧
    (now + 60 ≤ t →
      validateJWT secret t (.tok (createJWT secret now account)) =
        .error "token is expired") := by
  refine ⟨rfl, rfl, ?_, ?_⟩
  · intro ht
    simp [validateJWT, createJWT, ht]
  · intro ht
    simp [validateJWT, createJWT, not_lt.mpr ht]

/-- Witness: `jwt_token_expiry` with a concrete secret, issue time 0,
checked inside the window (t = 30) and past it (t = 90). -/
theorem jwt_token_expiry_witness :
    validateJWT "sec" 30 (.tok (createJWT "sec" 0 accAnna)) =
      .ok (createJWT "sec" 0 accAnna) ∧
    validateJWT "sec" 90 (.tok (createJWT "sec" 0 accAnna)) =
      .error "token is expired" :=
  ⟨(jwt_token_expiry "sec" 0 30 accAnna).2.2.1 (by decide),
   (jwt_token_expiry "sec" 0 90 accAnna).2.2.2 (by decide)⟩

/-- The concrete uuid stand-in is injective. -/
theorem demoUuid_injective : Function.Injective demoUuid := by
  intro x y hxy
  have h' : List.replicate x 'u' = List.replicate y 'u' :=
    congrArg String.data hxy
  simpa using congrArg List.length h'

/-- C9: the external number is fixed at construction from the uuid draw,
and distinct draws of an injective generator give distinct numbers across
repeated creations; `Transfer` keeps every row's fields except possibly
its balance (in particular the number), and `DeleteAccount` only removes
rows, leaving the remaining rows unchanged members of the store. -/
theorem account_number_unique_and_immutable
    (uuidNewString : Nat → String) (hinj : Function.Injective uuidNewString)
    (generateFromPassword : String → String) (k m : Nat) (hkm : k ≠ m)
    (f₁ l₁ p₁ f₂ l₂ p₂ : String) (t₁ t₂ : Int)
    (s : List Account) (accountNumber : String) (amount : Int)
    (reqId : Int) :
    (NewAccount generateFromPassword f₁ l₁ p₁ (uuidNewString k) t₁).number ≠
      (NewAccount generateFromPassword f₂ l₂ p₂ (uuidNewString m) t₂).number ∧
    (Transfer s accountNumber amount).2.length = s.length ∧
    (∀ i (h : i < s.length)
        (h' : i < (Transfer s accountNumber amount).2.length),
      ∃ b : Int, (Transfer s accountNumber amount).2.get ⟨i, h'⟩ =
        { s.get ⟨i, h⟩ with balance := b }) ∧
    (∀ a ∈ (DeleteAccount s reqId).2, a ∈ s) := by
  refine ⟨fun hch => hkm (hinj hch), ?_, ?_, ?_⟩
  · unfold Transfer
    exact List.length_map s _
  · intro i h h'
    unfold Transfer
    dsimp only
    rw [List.get_map]
    by_cases hn : (s.get ⟨i, h⟩).number = accountNumber
    · exact ⟨(s.get ⟨i, h⟩).balance + amount, by rw [if_pos hn]⟩
    · exact ⟨(s.get ⟨i, h⟩).balance, by rw [if_neg hn]⟩
  · intro a ha
    unfold DeleteAccount at ha
    dsimp only at ha
    exact (List.mem_filter.mp ha).1

/-- Witness: `account_number_unique_and_immutable` with the concrete
injective uuid generator at draws 0 and 1, and the concrete store. -/
theorem account_number_unique_witness :
    (NewAccount (fun pw => pw) "Anna" "Adler" "p1" (demoUuid 0) 0).number ≠
      (NewAccount (fun pw => pw) "Bjorn" "Berg" "p2" (demoUuid 1) 1).number ∧
    (Transfer demoStore "num-anna" 3).2.length = demoStore.length := by
  have h := account_number_unique_and_immutable demoUuid demoUuid_injective
    (fun pw => pw) 0 1 (by decide) "Anna" "Adler" "p1" "Bjorn" "Berg" "p2"
    0 1 demoStore "num-anna" 3 5
  exact ⟨h.1, h.2.1⟩

end GoBank
